import Mathlib

/-!
Verification development for the Dell fan controller (`src/dellfan.py`).

The Python source is shallowly embedded: each relevant method becomes a
Lean function over explicit inputs (subprocess results, configuration
snapshots), machine side effects (emitted Qt signals, issued commands)
become returned values, and partial operations (list indexing that can
raise `IndexError`, `float`/`int` parsing that can raise `ValueError`)
become `Option`-valued functions.
-/

namespace Dellfan

/-! ### Python string primitives used by the source -/

/-- The whitespace characters removed by Python `str.strip()` (the ASCII
ones; the source only strips subprocess stdout). -/
def isPySpace (c : Char) : Bool :=
  c == ' ' || c == '\t' || c == '\n' || c == '\r' || c == '\x0b' || c == '\x0c'

/-- Python `s.strip()`: drop leading and trailing whitespace. -/
def pyStrip (s : String) : String :=
  ⟨((s.data.dropWhile isPySpace).reverse.dropWhile isPySpace).reverse⟩

/-- Substring test on character lists: does `pat` occur contiguously in the
list? Used to embed Python's `'Temp' in s` / `re.search(r'Temp|RPM', s)`
(the regex is an alternation of two literals, i.e. substring search). -/
def containsSub (pat : List Char) : List Char → Bool
  | [] => pat.isEmpty
  | c :: ts => pat.isPrefixOf (c :: ts) || containsSub pat ts

/-- Python `pat in t` for strings (case-sensitive substring test). -/
def strContains (t pat : String) : Bool :=
  containsSub pat.data t.data

/-- Python `str.splitlines` on characters: split at `\n`, `\r\n` or `\r`,
with no trailing empty line for a trailing terminator. -/
def splitlinesAux : List Char → List Char → List (List Char)
  | [], acc => if acc.isEmpty then [] else [acc.reverse]
  | '\r' :: '\n' :: r, acc => acc.reverse :: splitlinesAux r []
  | '\n' :: r, acc => acc.reverse :: splitlinesAux r []
  | '\r' :: r, acc => acc.reverse :: splitlinesAux r []
  | c :: r, acc => splitlinesAux r (c :: acc)

/-- Python `raw_output.splitlines()`. -/
def pySplitlines (s : String) : List String :=
  (splitlinesAux s.data []).map (fun cs => ⟨cs⟩)

/-- Python `line.split('|')` on characters: split at every `'|'`, keeping
empty fields; the empty string splits to one empty field. -/
def splitPipe : List Char → List (List Char)
  | [] => [[]]
  | c :: r =>
    let rest := splitPipe r
    if c = '|' then [] :: rest
    else
      match rest with
      | [] => [[c]]
      | g :: gs => (c :: g) :: gs

/-! ### Sensor parser (`SensorDataThread.parse_sensor_data`) -/

/-- The match test of the parser: `re.search(r'Temp|RPM', line)`. -/
def isSensorLine (line : String) : Bool :=
  strContains line "Temp" || strContains line "RPM"

/-- `line.split('|')` as a list of field strings. -/
def lineFields (line : String) : List String :=
  (splitPipe line.data).map (fun cs => ⟨cs⟩)

/-- `parse_sensor_data` (src/dellfan.py:73-79): loop over `splitlines()`,
appending `line.split('|')` for every line matching `Temp|RPM`. -/
def parse_sensor_data (raw_output : String) : List (List String) :=
  (pySplitlines raw_output).foldl
    (fun sensor_list line =>
      if isSensorLine line then sensor_list ++ [lineFields line] else sensor_list)
    []

/-! ### Python numeric conversions used by the source -/

/-- Value of a run of decimal digits. -/
def digitsVal (ds : List Char) : Nat :=
  ds.foldl (fun a c => 10 * a + (c.toNat - 48)) 0

/-- An exact decimal number `num / 10 ^ pow10`, the value carried by a
successfully parsed Python float literal. Using an explicit scaled
integer keeps every operation kernel-computable; `Dec10.toRat` gives the
rational value it denotes. -/
structure Dec10 where
  num : ℤ
  pow10 : ℕ
deriving DecidableEq, Repr

/-- The rational value denoted by an exact decimal. -/
def Dec10.toRat (d : Dec10) : ℚ := (d.num : ℚ) / 10 ^ d.pow10

/-- Strict order on exact decimals, by cross-multiplication (the
denominators `10 ^ _` are positive). -/
def Dec10.blt (a b : Dec10) : Bool :=
  decide (a.num * 10 ^ b.pow10 < b.num * 10 ^ a.pow10)

/-- Python `max` on exact decimals: keep the current value unless the
candidate is strictly larger. -/
def Dec10.bmax (a b : Dec10) : Dec10 := if a.blt b then b else a

/-- An integer as an exact decimal. -/
def Dec10.ofInt (n : ℤ) : Dec10 := ⟨n, 0⟩

/-- Model of Python `float(s)` for finite decimal literals: optional
surrounding whitespace, optional sign, digits with an optional fractional
part and an optional decimal exponent. Other inputs (including the
special values `inf`/`nan`, which never occur as sensor values) are
treated as a `ValueError`, i.e. `none`. The result is exact. -/
def pyFloat? (s : String) : Option Dec10 :=
  let cs := (pyStrip s).data
  let p1 : Bool × List Char :=
    match cs with
    | '+' :: r => (false, r)
    | '-' :: r => (true, r)
    | r => (false, r)
  let neg := p1.1
  let cs1 := p1.2
  let ip := cs1.takeWhile Char.isDigit
  let cs2 := cs1.dropWhile Char.isDigit
  let p2 : Option (List Char) × List Char :=
    match cs2 with
    | '.' :: r => (some (r.takeWhile Char.isDigit), r.dropWhile Char.isDigit)
    | r => (none, r)
  let fp := p2.1
  let cs3 := p2.2
  let mantOk : Bool := !ip.isEmpty || (match fp with | some f => !f.isEmpty | none => false)
  let flen : ℕ := match fp with | some f => f.length | none => 0
  let mantNum : ℕ := digitsVal ip * 10 ^ flen + (match fp with | some f => digitsVal f | none => 0)
  let signed : ℤ := if neg then -(mantNum : ℤ) else (mantNum : ℤ)
  match cs3 with
  | 'e' :: r | 'E' :: r =>
    let p3 : Bool × List Char :=
      match r with
      | '+' :: r2 => (false, r2)
      | '-' :: r2 => (true, r2)
      | r2 => (false, r2)
    let ed := p3.2.takeWhile Char.isDigit
    let rest := p3.2.dropWhile Char.isDigit
    if mantOk && !ed.isEmpty && rest.isEmpty then
      some (if p3.1 then ⟨signed, flen + digitsVal ed⟩ else ⟨signed * 10 ^ digitsVal ed, flen⟩)
    else none
  | rest =>
    if mantOk && rest.isEmpty then some ⟨signed, flen⟩ else none

/-- Model of Python `int(s)` for decimal literals: optional surrounding
whitespace, optional sign, a nonempty digit run; anything else raises
`ValueError`, i.e. `none`. -/
def pyInt? (s : String) : Option ℤ :=
  let cs := (pyStrip s).data
  let p1 : Bool × List Char :=
    match cs with
    | '+' :: r => (false, r)
    | '-' :: r => (true, r)
    | r => (false, r)
  let ds := p1.2
  if !ds.isEmpty && ds.all Char.isDigit then
    some (if p1.1 then -(digitsVal ds : ℤ) else (digitsVal ds : ℤ))
  else none

/-- Hex digits of `n` (lowercase, most significant first), by fuel;
`natHexAux fuel n` is exact whenever `n ≤ fuel` or `n = 0`. -/
def natHexAux : Nat → Nat → List Char
  | 0, _ => []
  | fuel + 1, n => if n = 0 then [] else natHexAux fuel (n / 16) ++ [Nat.digitChar (n % 16)]

/-- Lowercase hex digits of a natural number. -/
def natHex (n : Nat) : List Char :=
  if n = 0 then ['0'] else natHexAux n n

/-- The text produced by Python's format spec `02x` for an integer:
lowercase hex, zero-padded on the left to a minimum total width of 2; for
a negative value the sign precedes the padding and counts toward the
width. -/
def pyHexWidth2 (n : ℤ) : String :=
  let ds := natHex n.natAbs
  if n < 0 then ⟨'-' :: (List.replicate (1 - ds.length) '0' ++ ds)⟩
  else ⟨List.replicate (2 - ds.length) '0' ++ ds⟩

/-! ### Connection configuration and issued command lines -/

/-- The connection fields held on the GUI object and passed to the worker
thread (`self.ip`, `self.user`, `self.password`, `self.ipmitool_path`). -/
structure ConnectionConfig where
  ip : String
  user : String
  password : String
  ipmitool_path : String
deriving DecidableEq, Repr

/-- The sensor-dump command line built in `get_sensor_data`
(src/dellfan.py:58-60). -/
def sensorCommand (cfg : ConnectionConfig) : String :=
  cfg.ipmitool_path ++ " -I lanplus -H " ++ cfg.ip ++ " -U " ++ cfg.user ++
    " -P " ++ cfg.password ++ " sensor"

/-- The disable-vendor-automatic command line built in
`execute_set_fan_speed` (src/dellfan.py:296-297). -/
def disableAutoCommand (cfg : ConnectionConfig) : String :=
  cfg.ipmitool_path ++ " -I lanplus -H " ++ cfg.ip ++ " -U " ++ cfg.user ++
    " -P " ++ cfg.password ++ " raw 0x30 0x30 0x01 0x00"

/-- The set-duty command line built in `execute_set_fan_speed`
(src/dellfan.py:301-302), with the percent formatted via `0x{n:02x}`. -/
def setSpeedCommand (cfg : ConnectionConfig) (percent_num : ℤ) : String :=
  cfg.ipmitool_path ++ " -I lanplus -H " ++ cfg.ip ++ " -U " ++ cfg.user ++
    " -P " ++ cfg.password ++ " raw 0x30 0x30 0x02 0xff 0x" ++ pyHexWidth2 percent_num

/-- The restore-vendor-automatic command line built in
`execute_reset_fan_control` (src/dellfan.py:285-286). -/
def resetCommand (cfg : ConnectionConfig) : String :=
  cfg.ipmitool_path ++ " -I lanplus -H " ++ cfg.ip ++ " -U " ++ cfg.user ++
    " -P " ++ cfg.password ++ " raw 0x30 0x30 0x01 0x01"

/-! ### Command executor (`SensorDataThread.execute_cmd`) -/

/-- The observable result of `subprocess.run(..., capture_output=True,
text=True)`: captured stdout, captured stderr, and the exit code. -/
structure CompletedProcess where
  stdout : String
  stderr : String
  returncode : ℤ
deriving DecidableEq, Repr

/-- `execute_cmd` (src/dellfan.py:81-89). The argument is the outcome of
`subprocess.run`: `none` when it raised (launch failure), which the
method catches and turns into a `None` return; otherwise the completed
process. A non-zero exit code only triggers a diagnostic print — the
method still returns `result.stdout.strip()`, and the exit code is not
part of the return value. -/
def execute_cmd : Option CompletedProcess → Option String
  | none => none
  | some result => some (pyStrip result.stdout)

/-! ### Fetch path (`SensorDataThread.get_sensor_data`) and poll loop -/

/-- What the environment does to one fetch attempt: either the `try`
body raises (caught by `except Exception`, src/dellfan.py:69-71), or the
subprocess layer reports an outcome (`none` = `subprocess.run` raised,
see `execute_cmd`). -/
inductive FetchEnv where
  | exn : FetchEnv
  | proc (result : Option CompletedProcess) : FetchEnv
deriving DecidableEq, Repr

/-- `get_sensor_data` (src/dellfan.py:53-71): blank `ip`/`user`/`password`
short-circuits to `None` before any command (`ipmitool_path` is not
checked); a caught exception also yields `None`; a falsy executor result
(`None` or empty string) yields `[]`; otherwise the stripped stdout is
parsed. -/
def get_sensor_data (cfg : ConnectionConfig) (env : FetchEnv) : Option (List (List String)) :=
  if cfg.ip == "" || cfg.user == "" || cfg.password == "" then none
  else
    match env with
    | .exn => none
    | .proc p =>
      match execute_cmd p with
      | none => some []
      | some result => if result = "" then some [] else some (parse_sensor_data result)

/-- The executor invocations performed by one call to `get_sensor_data`:
empty when the blank-credentials check short-circuits, otherwise the one
sensor-dump command. -/
def fetchCommands (cfg : ConnectionConfig) : List String :=
  if cfg.ip == "" || cfg.user == "" || cfg.password == "" then [] else [sensorCommand cfg]

/-- The two Qt signals the worker thread can emit (src/dellfan.py:33-34). -/
inductive RunEvent where
  | data_ready (sensor_data : List (List String)) : RunEvent
  | error_occurred : RunEvent
deriving DecidableEq, Repr

/-- The signal emitted by one iteration of `run` (src/dellfan.py:43-51)
for a given `get_sensor_data` result: nothing for `None`, the error
signal for an empty list, the data signal for a non-empty list. -/
def runEvent : Option (List (List String)) → Option RunEvent
  | none => none
  | some [] => some RunEvent.error_occurred
  | some (s :: rest) => some (RunEvent.data_ready (s :: rest))

/-- One iteration of the `while True` poll loop in `run`
(src/dellfan.py:43-51): the emitted signal, the `self.sleep(5)` pause,
and whether the loop continues — the loop condition is the literal
`True`, read from no state, so every iteration continues. -/
structure LoopIter where
  event : Option RunEvent
  sleepSeconds : Nat
  continues : Bool
deriving DecidableEq, Repr

/-- One poll-loop iteration for a configuration snapshot and a fetch
environment. -/
def runIteration (cfg : ConnectionConfig) (env : FetchEnv) : LoopIter :=
  { event := runEvent (get_sensor_data cfg env), sleepSeconds := 5, continues := true }

/-! ### Policy engine (`DellFanControllerGUI.auto_adjust_fan_speed`) -/

/-- The two fan-control decisions the auto-adjust step can take
(src/dellfan.py:276-282): revert to the vendor-automatic curve, or set a
fixed percent (passed on as the string argument of
`execute_set_fan_speed`). -/
inductive Decision where
  | reset : Decision
  | setPercent (percent : String) : Decision
deriving DecidableEq, Repr

/-- The `max_temp` loop of `auto_adjust_fan_speed` (src/dellfan.py:267-274).
`sensor[0]` on an empty reading and `sensor[1]` on a one-field reading
raise `IndexError`, which the `except ValueError` clause does not catch,
so those cases abort the whole step (`none`); a value that fails to parse
raises `ValueError`, which is caught and skipped. -/
def maxTempLoop : List (List String) → Dec10 → Option Dec10
  | [], max_temp => some max_temp
  | sensor :: rest, max_temp =>
    match sensor with
    | [] => none
    | nm :: vals =>
      if strContains nm "Temp" then
        match vals with
        | [] => none
        | v :: _ =>
          match pyFloat? v with
          | some temp => maxTempLoop rest (max_temp.bmax temp)
          | none => maxTempLoop rest max_temp
      else maxTempLoop rest max_temp

/-- The decision taken by `auto_adjust_fan_speed` (src/dellfan.py:265-282):
track the maximum parsed temperature starting from `0`; if it strictly
exceeds the threshold, reset to vendor-automatic, else set the hard-coded
fixed percent `"10"`. `none` when the loop raised `IndexError`. -/
def auto_adjust_fan_speed (sensor_data : List (List String)) (threshold : ℤ) : Option Decision :=
  (maxTempLoop sensor_data (Dec10.ofInt 0)).map
    (fun max_temp =>
      if (Dec10.ofInt threshold).blt max_temp then Decision.reset else Decision.setPercent "10")

/-- Specification-side view of the temperature scan: the parsed values of
exactly the readings whose name (field 0) contains `"Temp"`. -/
def tempsOf (sensor_data : List (List String)) : List Dec10 :=
  sensor_data.filterMap
    (fun sensor =>
      if strContains (sensor.headD "") "Temp" then pyFloat? (sensor.getD 1 "") else none)

/-- Specification-side maximum temperature: fold `max` over the parsed
temperatures, starting from `0`. -/
def maxTempSpec (sensor_data : List (List String)) : Dec10 :=
  (tempsOf sensor_data).foldl Dec10.bmax (Dec10.ofInt 0)

/-- A reading on which the `max_temp` loop cannot raise `IndexError`:
non-empty, and carrying a value field whenever its name contains
`"Temp"`. -/
def wfReading : List String → Bool
  | [] => false
  | [nm] => !(strContains nm "Temp")
  | _ :: _ :: _ => true

/-! ### Control actuator (`execute_set_fan_speed`, `set_fan_speed`) -/

/-- The command lines issued by `execute_set_fan_speed`
(src/dellfan.py:293-310): `int(percent)` first — a `ValueError` there is
caught by the surrounding `except` and no command is run; otherwise the
disable-vendor-automatic command and then the set-duty command are both
executed unconditionally (via the shell, which reports failures as exit
codes). -/
def execute_set_fan_speed (cfg : ConnectionConfig) (percent : String) : List String :=
  match pyInt? percent with
  | none => []
  | some percent_num => [disableAutoCommand cfg, setSpeedCommand cfg percent_num]

/-- The success report of `execute_set_fan_speed` (src/dellfan.py:305-308):
success is printed exactly when both exit codes are zero; there is no
rollback branch. -/
def setFanSpeedSuccess (code_disable code_set : ℤ) : Bool :=
  code_disable == 0 && code_set == 0

/-- The percent string passed on by the manual `set_fan_speed` action
(src/dellfan.py:251-255): `self.speed_input.text() or "10"` — the blank
string is falsy, so it falls back to `"10"`. -/
def set_fan_speed_arg (input : String) : String :=
  if input = "" then "10" else input

/-! ### Poll sessions (`start_sensor_thread` and the `run` loop) -/

/-- A live `SensorDataThread`. The only state `quit()` can touch is the
thread's event-loop exit flag. -/
structure Session where
  quitRequested : Bool
deriving DecidableEq, Repr

/-- Whether the `run` loop of a session keeps iterating: the loop head is
the literal `while True` (src/dellfan.py:44) — it consults no flag, so it
continues regardless of the session's state. -/
def runLoopContinues (_s : Session) : Bool := true

/-- `QThread.quit()` as observable on a session: it requests that the
thread's event loop exit (the overridden `run` never enters an event
loop). -/
def quitSession (_s : Session) : Session := { quitRequested := true }

/-- The process-wide collection of live poll loops. -/
structure AppThreads where
  live : List Session
deriving DecidableEq, Repr

/-- `start_sensor_thread` (src/dellfan.py:312-321): `quit()` the previous
thread (if any) and drop the handle, then create and start a new one. A
quit session stays live exactly when its loop keeps iterating, which
`runLoopContinues` reads off the source's `while True`. -/
def start_sensor_thread (a : AppThreads) : AppThreads :=
  { live := ((a.live.map quitSession).filter runLoopContinues) ++ [{ quitRequested := false }] }

/-! ### Helper lemmas -/

/-- The Boolean order on exact decimals agrees with the order of the
rational values they denote. -/
theorem Dec10.blt_iff (a b : Dec10) : a.blt b = true ↔ a.toRat < b.toRat := by
  unfold Dec10.blt Dec10.toRat
  rw [decide_eq_true_eq, div_lt_div_iff₀ (by positivity) (by positivity)]
  exact_mod_cast Iff.rfl

/-- An integer's exact decimal denotes that integer. -/
theorem Dec10.ofInt_toRat (n : ℤ) : (Dec10.ofInt n).toRat = (n : ℚ) := by
  simp [Dec10.ofInt, Dec10.toRat]

/-- Accumulating loop shape of the parser: appending matches is filtering
followed by mapping. -/
theorem foldl_filter_map_aux (p : String → Bool) (f : String → List String) :
    ∀ (ls : List String) (acc : List (List String)),
      ls.foldl (fun a l => if p l then a ++ [f l] else a) acc
        = acc ++ (ls.filter p).map f := by
  intro ls
  induction ls with
  | nil => intro acc; simp
  | cons l ls ih =>
    intro acc
    by_cases h : p l
    · simp [List.foldl_cons, h, ih, List.filter_cons]
    · simp [List.foldl_cons, h, ih, List.filter_cons]

/-- `parse_sensor_data` keeps exactly the matching lines, in order, split
into fields. -/
theorem parse_sensor_data_eq (raw_output : String) :
    parse_sensor_data raw_output
      = ((pySplitlines raw_output).filter isSensorLine).map lineFields := by
  unfold parse_sensor_data
  rw [foldl_filter_map_aux]
  simp

/-- `split('|')` always yields at least one field. -/
theorem splitPipe_ne_nil (cs : List Char) : splitPipe cs ≠ [] := by
  induction cs with
  | nil => simp [splitPipe]
  | cons c r ih =>
    rw [splitPipe]
    by_cases hc : c = '|'
    · simp [hc]
    · cases h : splitPipe r with
      | nil => exact absurd h ih
      | cons g gs => simp [hc, h]

/-- Every reading emitted by the parser is non-empty. -/
theorem mem_parse_ne_nil (raw_output : String) (s : List String)
    (hs : s ∈ parse_sensor_data raw_output) : s ≠ [] := by
  rw [parse_sensor_data_eq] at hs
  obtain ⟨line, _, rfl⟩ := List.mem_map.mp hs
  unfold lineFields
  intro h
  exact splitPipe_ne_nil line.data (List.map_eq_nil_iff.mp h)

/-- The `max_temp` loop computes the fold of `max` over the parsed
temperatures of the name-matching readings, whenever no reading can raise
`IndexError`. -/
theorem maxTempLoop_eq : ∀ (sensor_data : List (List String)) (acc : Dec10),
    (∀ s ∈ sensor_data, wfReading s = true) →
    maxTempLoop sensor_data acc = some ((tempsOf sensor_data).foldl Dec10.bmax acc) := by
  intro sensor_data
  induction sensor_data with
  | nil => intro acc _; simp [maxTempLoop, tempsOf]
  | cons s rest ih =>
    intro acc h
    have hs : wfReading s = true := h s (List.mem_cons_self s rest)
    have hrest : ∀ x ∈ rest, wfReading x = true := fun x hx => h x (List.mem_cons_of_mem s hx)
    match s with
    | [] => simp [wfReading] at hs
    | [nm] =>
      have hT : strContains nm "Temp" = false := by
        by_contra hc
        rw [wfReading] at hs
        rw [Bool.not_eq_false] at hc
        rw [hc] at hs
        simp at hs
      simp [maxTempLoop, tempsOf, hT, ih acc hrest]
    | nm :: v :: vs =>
      by_cases hT : strContains nm "Temp" = true
      · cases hp : pyFloat? v with
        | some t =>
          simp [maxTempLoop, tempsOf, hT, hp, ih (acc.bmax t) hrest]
        | none =>
          simp [maxTempLoop, tempsOf, hT, hp, ih acc hrest]
      · rw [Bool.not_eq_true] at hT
        simp [maxTempLoop, tempsOf, hT, ih acc hrest]

/-! ### Claim theorems -/

/-- C1: for every reading set on which the value access is in bounds
(cf. C10) and every threshold, the decision step scans exactly the
readings whose name (field 0) contains "Temp", parses each raw value
(field 1), skipping values that fail to parse, and tracks the maximum
parsed temperature starting from 0; it returns Reset exactly when that
maximum strictly exceeds the threshold and SetPercent otherwise; a
reading set with no parseable temperature yields SetPercent for any
non-negative threshold. -/
theorem auto_adjust_decision_correct (sensor_data : List (List String)) (threshold : ℤ)
    (hwf : ∀ s ∈ sensor_data, wfReading s = true) :
    auto_adjust_fan_speed sensor_data threshold
        = some (if (Dec10.ofInt threshold).blt (maxTempSpec sensor_data)
                then Decision.reset else Decision.setPercent "10")
    ∧ (auto_adjust_fan_speed sensor_data threshold = some Decision.reset
        ↔ (threshold : ℚ) < (maxTempSpec sensor_data).toRat)
    ∧ (tempsOf sensor_data = [] → 0 ≤ threshold →
        auto_adjust_fan_speed sensor_data threshold = some (Decision.setPercent "10")) := by
  have h1 : auto_adjust_fan_speed sensor_data threshold
      = some (if (Dec10.ofInt threshold).blt (maxTempSpec sensor_data)
              then Decision.reset else Decision.setPercent "10") := by
    unfold auto_adjust_fan_speed maxTempSpec
    rw [maxTempLoop_eq sensor_data (Dec10.ofInt 0) hwf]
    rfl
  refine ⟨h1, ?_, ?_⟩
  · rw [h1, ← Dec10.ofInt_toRat threshold, ← Dec10.blt_iff]
    by_cases hb : (Dec10.ofInt threshold).blt (maxTempSpec sensor_data) = true
    · simp [hb]
    · simp [hb]
  · intro hempty hth
    rw [h1]
    have hms : maxTempSpec sensor_data = Dec10.ofInt 0 := by
      rw [maxTempSpec, hempty]
      rfl
    rw [hms]
    have hn : ¬ ((Dec10.ofInt threshold).num * 10 ^ (Dec10.ofInt 0).pow10
        < (Dec10.ofInt 0).num * 10 ^ (Dec10.ofInt threshold).pow10) := by
      simp [Dec10.ofInt]
      omega
    have hb : (Dec10.ofInt threshold).blt (Dec10.ofInt 0) = false := by
      rw [Dec10.blt, decide_eq_false hn]
    rw [hb]
    rfl

/-- Witness for C1, on the spec's worked example: readings
`[("Exhaust Temp","75","degrees C","ok"), ("Fan1 RPM","3000","RPM","ok")]`
with threshold 70 decide Reset. -/
theorem auto_adjust_decision_correct_witness :
    (∀ s ∈ ([["Exhaust Temp", "75", "degrees C", "ok"],
             ["Fan1 RPM", "3000", "RPM", "ok"]] : List (List String)), wfReading s = true)
    ∧ auto_adjust_fan_speed
        [["Exhaust Temp", "75", "degrees C", "ok"], ["Fan1 RPM", "3000", "RPM", "ok"]] 70
        = some Decision.reset := by
  refine ⟨by decide, ?_⟩
  rw [(auto_adjust_decision_correct
    [["Exhaust Temp", "75", "degrees C", "ok"], ["Fan1 RPM", "3000", "RPM", "ok"]] 70
    (by decide)).1]
  decide

/-- C2: for every raw sensor-dump text, `parse_sensor_data` returns
exactly the lines containing "Temp" or "RPM" (case-sensitive), in input
order, each split on the `|` delimiter with field count equal to the
delimiter-split count; non-matching lines are dropped, and with no
matching line the result is the empty list, not an error. -/
theorem parse_sensor_data_correct (raw_output : String) :
    parse_sensor_data raw_output
        = ((pySplitlines raw_output).filter isSensorLine).map lineFields
    ∧ (∀ r ∈ parse_sensor_data raw_output, ∃ line, line ∈ pySplitlines raw_output
        ∧ isSensorLine line = true ∧ r = lineFields line
        ∧ r.length = (splitPipe line.data).length)
    ∧ ((∀ line ∈ pySplitlines raw_output, isSensorLine line = false) →
        parse_sensor_data raw_output = []) := by
  refine ⟨parse_sensor_data_eq raw_output, ?_, ?_⟩
  · intro r hr
    rw [parse_sensor_data_eq] at hr
    obtain ⟨line, hline, rfl⟩ := List.mem_map.mp hr
    obtain ⟨hmem, hsl⟩ := List.mem_filter.mp hline
    exact ⟨line, hmem, hsl, rfl, by simp [lineFields]⟩
  · intro hall
    rw [parse_sensor_data_eq]
    have hf : (pySplitlines raw_output).filter isSensorLine = [] := by
      rw [List.filter_eq_nil_iff]
      intro a ha
      simp [hall a ha]
    rw [hf]
    rfl

/-- Witness for C2 on a concrete dump: the RPM line is kept and split,
the plain line is dropped. -/
theorem parse_sensor_data_correct_witness :
    parse_sensor_data "Fan1 RPM | 3000\nhello"
      = ((pySplitlines "Fan1 RPM | 3000\nhello").filter isSensorLine).map lineFields :=
  (parse_sensor_data_correct "Fan1 RPM | 3000\nhello").1

/-- C10: the decision step reads field 1 of every reading whose field 0
contains "Temp" with no arity check (`except ValueError` does not cover
`IndexError`), so on parser output it is total exactly under the
precondition that every such reading has at least two fields; the parser
output for a dump line containing "Temp" but no `|` delimiter is a
one-field reading, on which the value access is out of bounds. -/
theorem temp_reading_arity_precondition :
    (∀ (raw_output : String) (threshold : ℤ),
        (∀ s ∈ parse_sensor_data raw_output,
          strContains (s.headD "") "Temp" = true → 2 ≤ s.length) →
        (auto_adjust_fan_speed (parse_sensor_data raw_output) threshold).isSome = true)
    ∧ parse_sensor_data "CPU Temp 45" = [["CPU Temp 45"]]
    ∧ (∀ threshold : ℤ, auto_adjust_fan_speed [["CPU Temp 45"]] threshold = none) := by
  refine ⟨?_, by decide, ?_⟩
  · intro raw threshold h
    have hwf : ∀ s ∈ parse_sensor_data raw, wfReading s = true := by
      intro s hs
      have hne := mem_parse_ne_nil raw s hs
      match s with
      | [] => exact absurd rfl hne
      | [nm] =>
        cases hT : strContains nm "Temp" with
        | false => simp [wfReading, hT]
        | true =>
          have h2 := h [nm] hs (by simpa using hT)
          simp at h2
      | nm :: v :: vs => simp [wfReading]
    unfold auto_adjust_fan_speed
    rw [maxTempLoop_eq _ _ hwf]
    rfl
  · intro threshold
    have hm : maxTempLoop [["CPU Temp 45"]] (Dec10.ofInt 0) = none := by decide
    unfold auto_adjust_fan_speed
    rw [hm]
    rfl

/-- Witness for C10: on a delimited dump the precondition holds and the
decision step is defined. -/
theorem temp_reading_arity_precondition_witness :
    (auto_adjust_fan_speed (parse_sensor_data "Exhaust Temp |75") 0).isSome = true :=
  temp_reading_arity_precondition.1 "Exhaust Temp |75" 0 (by decide)

/-- C3 counterexample: a ConnectionConfig whose only blank field is the
tool path still invokes the executor — the blank-field short-circuit
checks host, username and secret only. -/
theorem fetch_blank_toolpath_invokes_executor_cex :
    ¬ (∀ cfg : ConnectionConfig,
        (cfg.ip = "" ∨ cfg.user = "" ∨ cfg.password = "" ∨ cfg.ipmitool_path = "") →
        fetchCommands cfg = []) := by
  intro h
  have hc := h ⟨"h", "u", "p", ""⟩ (by simp)
  exact absurd hc (by decide)

/-- C3 as amended: when host, username or secret is blank, the fetch path
issues no executor command and returns the distinct `None` marker, for
which the poll loop publishes no event at all (in particular not the
fetch-error signal); a blank tool path alone does not short-circuit. -/
theorem get_sensor_data_blank_credentials (cfg : ConnectionConfig) (env : FetchEnv)
    (h : cfg.ip = "" ∨ cfg.user = "" ∨ cfg.password = "") :
    fetchCommands cfg = [] ∧ get_sensor_data cfg env = none
    ∧ runEvent (get_sensor_data cfg env) = none := by
  have hc : (cfg.ip == "" || cfg.user == "" || cfg.password == "") = true := by
    rcases h with h | h | h <;> simp [h]
  have hg : get_sensor_data cfg env = none := by
    unfold get_sensor_data
    rw [hc]
    rfl
  refine ⟨?_, hg, ?_⟩
  · unfold fetchCommands
    rw [hc]
    rfl
  · rw [hg]
    rfl

/-- Witness for C3's amended theorem at a blank host. -/
theorem get_sensor_data_blank_credentials_witness :
    fetchCommands ⟨"", "root", "pw", "ipmitool"⟩ = []
    ∧ get_sensor_data ⟨"", "root", "pw", "ipmitool"⟩ (FetchEnv.proc none) = none
    ∧ runEvent (get_sensor_data ⟨"", "root", "pw", "ipmitool"⟩ (FetchEnv.proc none)) = none :=
  get_sensor_data_blank_credentials ⟨"", "root", "pw", "ipmitool"⟩ (FetchEnv.proc none)
    (Or.inl rfl)

/-- C4: for every connection config and every percent string parsing to
an integer in byte range, `execute_set_fan_speed` issues exactly two
commands in order — the disable-vendor-automatic command with payload
`raw 0x30 0x30 0x01 0x00`, then the set-duty command with payload
`raw 0x30 0x30 0x02 0xff` followed by the percent as a two-digit
lowercase hex byte (55 encodes as "37") — succeeds exactly when both
exit codes are zero, and issues no rollback command. -/
theorem execute_set_fan_speed_correct (cfg : ConnectionConfig) (percent : String) (n : ℤ)
    (code_disable code_set : ℤ)
    (hparse : pyInt? percent = some n) (h0 : 0 ≤ n) (h255 : n ≤ 255) :
    execute_set_fan_speed cfg percent = [disableAutoCommand cfg, setSpeedCommand cfg n]
    ∧ (execute_set_fan_speed cfg percent).length = 2
    ∧ disableAutoCommand cfg
        = cfg.ipmitool_path ++ " -I lanplus -H " ++ cfg.ip ++ " -U " ++ cfg.user ++
            " -P " ++ cfg.password ++ " raw 0x30 0x30 0x01 0x00"
    ∧ setSpeedCommand cfg n
        = cfg.ipmitool_path ++ " -I lanplus -H " ++ cfg.ip ++ " -U " ++ cfg.user ++
            " -P " ++ cfg.password ++ " raw 0x30 0x30 0x02 0xff 0x" ++ pyHexWidth2 n
    ∧ (pyHexWidth2 n).length = 2
    ∧ pyHexWidth2 55 = "37"
    ∧ (setFanSpeedSuccess code_disable code_set = true ↔ code_disable = 0 ∧ code_set = 0) := by
  have hcmds : execute_set_fan_speed cfg percent
      = [disableAutoCommand cfg, setSpeedCommand cfg n] := by
    unfold execute_set_fan_speed
    rw [hparse]
  refine ⟨hcmds, by rw [hcmds]; rfl, rfl, rfl, ?_, by decide, ?_⟩
  · have key : ∀ m : ℕ, m < 256 → (pyHexWidth2 (m : ℤ)).length = 2 := by
      set_option maxRecDepth 8192 in decide
    have hm : ((n.toNat : ℕ) : ℤ) = n := Int.toNat_of_nonneg h0
    have hlt : n.toNat < 256 := by omega
    rw [← hm]
    exact key n.toNat hlt
  · simp [setFanSpeedSuccess]

/-- Witness for C4 at percent 55 on a concrete config. -/
theorem execute_set_fan_speed_correct_witness :
    pyInt? "55" = some 55
    ∧ execute_set_fan_speed ⟨"h", "u", "p", "t"⟩ "55"
        = [disableAutoCommand ⟨"h", "u", "p", "t"⟩, setSpeedCommand ⟨"h", "u", "p", "t"⟩ 55] :=
  ⟨by decide,
   (execute_set_fan_speed_correct ⟨"h", "u", "p", "t"⟩ "55" 55 0 0
      (by decide) (by decide) (by decide)).1⟩

/-- C5 evaluated at the failing scenario: after a second start request
the model still holds two live fetch loops, because the run loop's
continuation condition is the literal `while True` — it is unaffected by
the quit request, so the old session never retires. -/
theorem start_sensor_thread_leaves_two_loops :
    (start_sensor_thread (start_sensor_thread { live := [] })).live.length = 2
    ∧ (∀ s : Session, runLoopContinues (quitSession s) = true)
    ∧ (∀ s : Session, runLoopContinues s = true) :=
  ⟨by decide, fun _ => rfl, fun _ => rfl⟩

/-- C6 counterexample: the claim that a SetPercent decision carries the
user-supplied manual speed whenever one is set fails — with manual speed
"20" set, the auto-adjust path still applies "10". -/
theorem auto_adjust_ignores_manual_speed_cex :
    ¬ (∀ (manual_speed : String) (sensor_data : List (List String)) (threshold : ℤ)
        (p : String),
        manual_speed ≠ "" →
        auto_adjust_fan_speed sensor_data threshold = some (Decision.setPercent p) →
        p = manual_speed) := by
  intro h
  have hc := h "20" [] 0 "10" (by decide) (by decide)
  exact absurd hc (by decide)

/-- C6 as amended: in the auto-adjust path every SetPercent decision
carries the hard-coded "10", regardless of any manual speed input. -/
theorem auto_adjust_percent_always_ten (sensor_data : List (List String)) (threshold : ℤ)
    (p : String)
    (h : auto_adjust_fan_speed sensor_data threshold = some (Decision.setPercent p)) :
    p = "10" := by
  unfold auto_adjust_fan_speed at h
  cases hm : maxTempLoop sensor_data (Dec10.ofInt 0) with
  | none => rw [hm] at h; simp at h
  | some m =>
    rw [hm] at h
    by_cases hb : (Dec10.ofInt threshold).blt m = true
    · simp [hb] at h
    · simp [hb] at h
      exact h.symm

/-- Witness for C6's amended theorem on the empty reading set. -/
theorem auto_adjust_percent_always_ten_witness :
    auto_adjust_fan_speed [] 0 = some (Decision.setPercent "10") ∧ ("10" : String) = "10" :=
  ⟨by decide, auto_adjust_percent_always_ten [] 0 "10" (by decide)⟩

/-- C7 counterexample: no reading of `execute_cmd`'s return value can
recover the exit code — two runs with equal stdout but different exit
codes produce the same return value, so the result does not contain the
exit code. -/
theorem execute_cmd_no_exit_code_cex :
    ¬ (∃ g : Option String → ℤ,
        ∀ r : CompletedProcess, g (execute_cmd (some r)) = r.returncode) := by
  rintro ⟨g, hg⟩
  have h0 := hg ⟨"out", "", 0⟩
  have h1 := hg ⟨"out", "err", 1⟩
  have he : execute_cmd (some ⟨"out", "", 0⟩) = execute_cmd (some ⟨"out", "err", 1⟩) := by
    decide
  rw [he, h1] at h0
  exact absurd h0 (by decide)

/-- C7 as amended: `execute_cmd` never raises for a non-zero exit and
returns only the stripped captured stdout (the exit code is consumed
internally); a launch failure yields the distinct `None` outcome, which
no successfully launched process can produce. -/
theorem execute_cmd_stdout_only (result : CompletedProcess) :
    execute_cmd (some result) = some (pyStrip result.stdout)
    ∧ execute_cmd none = none
    ∧ execute_cmd (some result) ≠ none :=
  ⟨rfl, rfl, by simp [execute_cmd]⟩

/-- C8: the manual set-speed action with a blank input string falls back
to "10", so the effective percent applied is 10 (hex byte "0a"). -/
theorem set_fan_speed_blank_defaults_ten (cfg : ConnectionConfig) :
    set_fan_speed_arg "" = "10"
    ∧ pyInt? (set_fan_speed_arg "") = some 10
    ∧ execute_set_fan_speed cfg (set_fan_speed_arg "")
        = [disableAutoCommand cfg, setSpeedCommand cfg 10]
    ∧ pyHexWidth2 10 = "0a" := by
  refine ⟨rfl, by decide, ?_, by decide⟩
  show execute_set_fan_speed cfg "10" = _
  unfold execute_set_fan_speed
  have h10 : pyInt? "10" = some 10 := by decide
  rw [h10]

/-- C9 counterexample: with a fully configured connection, the iteration
whose fetch hits the caught-exception path publishes no event at all, so
not every failure outcome is surfaced as a published event. -/
theorem run_iteration_exception_no_event_cex :
    ¬ (∀ env : FetchEnv,
        ((runIteration ⟨"h", "u", "p", "t"⟩ env).event).isSome = true) := by
  intro h
  have hc := h FetchEnv.exn
  exact absurd hc (by decide)

/-- C9 as amended: one poll-loop iteration never raises in the model and
always proceeds to the next 5-second tick; a fetch returning the empty
list (launch failure, empty stdout, or no matching line) publishes the
fetch-error event and a non-empty fetch publishes the readings event,
but the `None` outcomes (caught exception, missing configuration)
publish no event. -/
theorem run_iteration_total (cfg : ConnectionConfig) (env : FetchEnv) :
    (runIteration cfg env).continues = true
    ∧ (runIteration cfg env).sleepSeconds = 5
    ∧ (runIteration cfg env).event = runEvent (get_sensor_data cfg env)
    ∧ (get_sensor_data cfg env = some [] →
        (runIteration cfg env).event = some RunEvent.error_occurred)
    ∧ (∀ s rest, get_sensor_data cfg env = some (s :: rest) →
        (runIteration cfg env).event = some (RunEvent.data_ready (s :: rest)))
    ∧ (get_sensor_data cfg env = none → (runIteration cfg env).event = none)
    ∧ ((cfg.ip == "" || cfg.user == "" || cfg.password == "") = false →
        get_sensor_data cfg (FetchEnv.proc none) = some []) := by
  refine ⟨rfl, rfl, rfl, ?_, ?_, ?_, ?_⟩
  · intro h
    show runEvent (get_sensor_data cfg env) = _
    rw [h]
    rfl
  · intro s rest h
    show runEvent (get_sensor_data cfg env) = _
    rw [h]
    rfl
  · intro h
    show runEvent (get_sensor_data cfg env) = _
    rw [h]
    rfl
  · intro h
    unfold get_sensor_data
    rw [h]
    rfl

/-- Witness for C9's amended theorem: a launch failure on a configured
connection publishes the fetch-error event. -/
theorem run_iteration_total_witness :
    get_sensor_data ⟨"h", "u", "p", "t"⟩ (FetchEnv.proc none) = some []
    ∧ (runIteration ⟨"h", "u", "p", "t"⟩ (FetchEnv.proc none)).event
        = some RunEvent.error_occurred :=
  ⟨by decide, (run_iteration_total ⟨"h", "u", "p", "t"⟩ (FetchEnv.proc none)).2.2.2.1 (by decide)⟩

end Dellfan

